import Mathlib

/-!
Verification development for the VoxSynth client workflow controller.

Shallow embedding of:
  - `lib/format` (src/unnamed/part_000): `formatDuration`, `formatFileSize`;
  - `lib/api`   (src/unnamed/part_001): response shapes, `uploadAudio`'s
    error-message computation, `checkHealth`;
  - `components/voice-engine.tsx`: the session state machine — states,
    event handlers, the script-toggle effect and the health-poll loop —
    modelled as an executable labelled transition system.

JavaScript numbers are modelled as exact rationals (ℚ) or naturals where the
code only ever sees integral byte counts; `Number.prototype.toFixed` is
modelled on exact nonnegative rationals with round-half-up, which agrees with
the JavaScript semantics on every value considered here.
-/

namespace VoxSynth

/-- `String.prototype.padStart(n, c)` for a single pad character. -/
def padStart (s : String) (n : Nat) (c : Char) : String :=
  if n ≤ s.length then s
  else String.mk (List.replicate (n - s.length) c) ++ s

/-- Two-digit zero-padded rendering of a natural number below 100. -/
def pad2 (m : Nat) : String :=
  if m < 10 then "0" ++ toString m else toString m

/-- `q.toFixed(2)` for a nonnegative exact rational: round `q` to hundredths,
half away from zero, and print with exactly two decimals. -/
def toFixed2 (q : ℚ) : String :=
  let n : Nat := (⌊q * 100 + 1/2⌋).toNat
  toString (n / 100) ++ "." ++ pad2 (n % 100)

/-- `q.toFixed(1)` for a nonnegative exact rational: round `q` to tenths,
half away from zero, and print with exactly one decimal. -/
def toFixed1 (q : ℚ) : String :=
  let n : Nat := (⌊q * 10 + 1/2⌋).toNat
  toString (n / 10) ++ "." ++ toString (n % 10)

/-- `formatDuration` from `lib/format`: render seconds as `"MM:SS.XXs"`.
`mins = Math.floor(seconds / 60)`, `secs = seconds - mins * 60`, then
`String(mins).padStart(2,"0") + ":" + secs.toFixed(2).padStart(5,"0") + "s"`. -/
def formatDuration (seconds : ℚ) : String :=
  let mins : ℤ := ⌊seconds / 60⌋
  let secs : ℚ := seconds - mins * 60
  padStart (toString mins) 2 '0' ++ ":" ++ padStart (toFixed2 secs) 5 '0' ++ "s"

/-- `formatFileSize` from `lib/format`: bytes below 1024 print as `"N B"`,
below 1024·1024 as tenths of KB, and everything else as tenths of MB —
there is no larger unit. -/
def formatFileSize (bytes : ℕ) : String :=
  if bytes < 1024 then toString bytes ++ " B"
  else if bytes < 1024 * 1024 then toFixed1 ((bytes : ℚ) / 1024) ++ " KB"
  else toFixed1 ((bytes : ℚ) / (1024 * 1024)) ++ " MB"

/-- `UploadAudioResponse` from `lib/api`. -/
structure UploadAudioResponse where
  task_id : String
  filename : String
  duration : ℚ
  duration_formatted : String
  sample_rate : ℕ
  channels : ℕ
  frequency_range : String
  quality_score : ℚ
  deriving DecidableEq, Repr

/-- `CompleteEvent` from `lib/api`. -/
structure CompleteEvent where
  task_id : String
  duration_formatted : String
  sample_rate : ℕ
  file_size_bytes : ℕ
  deriving DecidableEq, Repr

/-- `HealthResponse` from `lib/api`. -/
structure HealthResponse where
  status : String
  model_loaded : Bool
  model_loading : Bool
  model_status : String
  model_error : Option String
  device : Option String
  deriving DecidableEq, Repr

/-- The message of the `Error` thrown by `uploadAudio` on a non-2xx response:
`body.detail ?? ``Upload failed (${res.status})```. `detail` is `none` when
the body has no `detail` field or the body fails to parse as JSON
(`res.json().catch(() => ({}))`). -/
def uploadErrorMessage (detail : Option String) (status : ℕ) : String :=
  detail.getD ("Upload failed (" ++ toString status ++ ")")

/-- `EngineState` from `components/voice-engine.tsx` ("audio-uploaded",
"script-uploaded" etc. in the source; the spec calls `audioUploaded`
"audio-selected", `processing` "uploading", `processed` "analyzed", and
`scriptUploaded` "scripted"). -/
inductive EngineState
  | idle
  | audioUploaded
  | processing
  | processed
  | scriptUploaded
  | generating
  | complete
  deriving DecidableEq, Repr

/-- The React state of `VoiceEngine`, plus bookkeeping for the asynchronous
resources the component manipulates:

* `ref` — whether `eventSourceRef.current` is non-null;
* `openStreams` — how many `EventSource` objects have been constructed and
  not yet closed (`ref` points at the most recent one);
* `uploadInFlight` — an `await uploadAudio(...)` promise is outstanding;
* `pendingProcessed` — the `setTimeout(() => setState("processed"), 400)`
  callback is scheduled but has not fired;
* `pendingComplete` — the `setTimeout(() => setState("complete"), 600)`
  callback is scheduled but has not fired;
* `polling` — the health-poll loop of the `useEffect` is still running.

A `File` is modelled by its name. -/
structure Session where
  state : EngineState
  audioFile : Option String
  scriptText : String
  progress : ℚ
  generationStage : String
  isPlaying : Bool
  error : Option String
  modelReady : Bool
  modelLoading : Bool
  modelStatus : String
  taskId : Option String
  audioMetadata : Option UploadAudioResponse
  outputMetadata : Option CompleteEvent
  ref : Bool
  openStreams : ℕ
  uploadInFlight : Bool
  pendingProcessed : Bool
  pendingComplete : Bool
  polling : Bool
  deriving DecidableEq, Repr

/-- The component's initial state (the `useState` initialisers; the health
poll effect starts running on mount). -/
def init : Session where
  state := .idle
  audioFile := none
  scriptText := ""
  progress := 0
  generationStage := ""
  isPlaying := false
  error := none
  modelReady := false
  modelLoading := true
  modelStatus := "connecting"
  taskId := none
  audioMetadata := none
  outputMetadata := none
  ref := false
  openStreams := 0
  uploadInFlight := false
  pendingProcessed := false
  pendingComplete := false
  polling := true

/-- The message stored by the generation stream's `error` listener.
The payload is modelled as: `none` — a plain connection error (not a
`MessageEvent` carrying data); `some none` — data present but
`JSON.parse` threw; `some (some none)` — parsed object without an `error`
field; `some (some (some m))` — parsed object whose `error` field is `m`
(an empty string is falsy in `data.error || "Generation failed"`). -/
def streamErrorMessage : Option (Option (Option String)) → String
  | some (some (some m)) => if m = "" then "Generation failed" else m
  | some (some none) => "Generation failed"
  | some none => "Generation failed"
  | none => "Connection to server lost"

/-- `String.prototype.trim()`: strip leading and trailing whitespace
(whitespace modelled by `Char.isWhitespace`), written by structural
recursion on the character list. -/
def jsTrim (s : String) : String :=
  String.mk (((s.data.dropWhile Char.isWhitespace).reverse.dropWhile Char.isWhitespace).reverse)

/-- The script-toggle `useEffect` (deps `[scriptText, state]`): flip
`processed` to `scriptUploaded` when the trimmed script is non-empty and
back when it is empty. Applied after every transition, mirroring the
render/effect loop running to a fixpoint. -/
def applyToggle (s : Session) : Session :=
  if s.state = .processed ∧ jsTrim s.scriptText ≠ "" then { s with state := .scriptUploaded }
  else if s.state = .scriptUploaded ∧ jsTrim s.scriptText = "" then { s with state := .processed }
  else s

/-- `handleReset`: close the referenced stream if any, then reset every piece
of React state to its initialiser. Scheduled `setTimeout` callbacks and the
health poller are untouched (the code does not cancel them). -/
def applyReset (s : Session) : Session :=
  { s with
    ref := false
    openStreams := if s.ref then s.openStreams - 1 else s.openStreams
    state := .idle
    audioFile := none
    scriptText := ""
    progress := 0
    generationStage := ""
    isPlaying := false
    error := none
    taskId := none
    audioMetadata := none
    outputMetadata := none }

/-- One successful iteration of the health-poll loop body, given the parsed
`checkHealth` response `h`: record `model_status`; if `model_loaded`, mark
ready and return (stop polling); else if status is `"failed"`, stop polling
and surface a fatal error; else record `model_loading` and keep polling. -/
def applyHealthOk (s : Session) (h : HealthResponse) : Session :=
  if h.model_loaded then
    { s with modelStatus := h.model_status, modelReady := true,
             modelLoading := false, polling := false }
  else if h.model_status = "failed" then
    { s with modelStatus := h.model_status, modelLoading := false,
             error := some ("Model failed to load: " ++ h.model_error.getD "unknown error"),
             polling := false }
  else
    { s with modelStatus := h.model_status, modelLoading := h.model_loading }

/-- The fixed retry delay of the health-poll loop,
`await new Promise((r) => setTimeout(r, 3000))`, in milliseconds. -/
def healthPollIntervalMs : ℕ := 3000

/-- The events the component reacts to: user interactions (enabled exactly
when the rendering makes the corresponding control available) and
network/timer callbacks (enabled exactly when the corresponding resource is
outstanding). `handleDownload` is omitted: it does not touch any state. -/
inductive Ev
  | selectAudio (file : String)
  | clearAudio
  | processAudio
  | uploadOk (r : UploadAudioResponse)
  | uploadErr (detail : Option String) (status : ℕ)
  | processedTimer
  | editScript (t : String)
  | generate
  | sseProgress (p : ℚ) (stage : Option String)
  | sseComplete (m : CompleteEvent)
  | sseError (payload : Option (Option (Option String)))
  | completeTimer
  | togglePlay
  | reset
  | dismissError
  | healthOk (h : HealthResponse)
  | healthErr

/-- One small step of the controller: `none` when the event's trigger is not
available in `s` (the UI does not render the control, or no such callback is
outstanding), otherwise the updated state. Each branch mirrors the
corresponding handler in `voice-engine.tsx`; `applyToggle` accounts for the
script-toggle effect that runs after the re-render. -/
def step (s : Session) (e : Ev) : Option Session :=
  match e with
  | .selectAudio f =>
      -- UploadZone rendered in the idle/audio-uploaded block; handleAudioSelect
      if s.state = .idle ∨ s.state = .audioUploaded then
        some (applyToggle { s with audioFile := some f, state := .audioUploaded, error := none })
      else none
  | .clearAudio =>
      -- UploadZone's Remove button (shown when a file is selected); handleAudioClear
      if (s.state = .idle ∨ s.state = .audioUploaded) ∧ s.audioFile ≠ none then
        some (applyToggle { s with audioFile := none, state := .idle })
      else none
  | .processAudio =>
      -- "Process Sample Audio" button (rendered when audioFile is set); handleProcessAudio
      if (s.state = .idle ∨ s.state = .audioUploaded) ∧ s.audioFile ≠ none then
        some (applyToggle { s with state := .processing, progress := 0, error := none,
                                   uploadInFlight := true })
      else none
  | .uploadOk r =>
      -- the awaited uploadAudio promise resolves
      if s.uploadInFlight then
        some (applyToggle { s with uploadInFlight := false, taskId := some r.task_id,
                                   audioMetadata := some r, progress := 100,
                                   pendingProcessed := true })
      else none
  | .uploadErr detail status =>
      -- the awaited uploadAudio promise rejects; catch block of handleProcessAudio
      if s.uploadInFlight then
        some (applyToggle { s with uploadInFlight := false,
                                   error := some (uploadErrorMessage detail status),
                                   state := .audioUploaded })
      else none
  | .processedTimer =>
      -- setTimeout(() => setState("processed"), 400) fires
      if s.pendingProcessed then
        some (applyToggle { s with pendingProcessed := false, state := .processed })
      else none
  | .editScript t =>
      -- the Textarea (rendered in the processed/script-uploaded block); covers insertTag
      if s.state = .processed ∨ s.state = .scriptUploaded then
        some (applyToggle { s with scriptText := t })
      else none
  | .generate =>
      -- "Generate Voice" button (rendered when the trimmed script is non-empty,
      -- disabled unless modelReady); handleGenerateVoice with its taskId guard
      if (s.state = .processed ∨ s.state = .scriptUploaded) ∧ jsTrim s.scriptText ≠ ""
          ∧ s.modelReady = true ∧ s.taskId ≠ none then
        some (applyToggle { s with state := .generating, progress := 0,
                                   generationStage := "Initializing", error := none,
                                   openStreams := s.openStreams + 1, ref := true })
      else none
  | .sseProgress p stage =>
      -- "progress" listener on the open EventSource
      if s.ref then
        some (applyToggle { s with progress := p, generationStage := stage.getD "" })
      else none
  | .sseComplete m =>
      -- "complete" listener: store metadata, close the stream, schedule the 600ms transition
      if s.ref then
        some (applyToggle { s with outputMetadata := some m, progress := 100,
                                   openStreams := s.openStreams - 1, ref := false,
                                   pendingComplete := true })
      else none
  | .sseError payload =>
      -- "error" listener: store a message, close the stream, fall back to script-uploaded
      if s.ref then
        some (applyToggle { s with error := some (streamErrorMessage payload),
                                   openStreams := s.openStreams - 1, ref := false,
                                   state := .scriptUploaded })
      else none
  | .completeTimer =>
      -- setTimeout(() => setState("complete"), 600) fires
      if s.pendingComplete then
        some (applyToggle { s with pendingComplete := false, state := .complete })
      else none
  | .togglePlay =>
      -- playback button in the complete block
      if s.state = .complete then
        some (applyToggle { s with isPlaying := !s.isPlaying })
      else none
  | .reset =>
      -- "Start Over" button in the complete block; handleReset
      if s.state = .complete then some (applyToggle (applyReset s)) else none
  | .dismissError =>
      -- the error banner's dismiss button
      if s.error ≠ none then some (applyToggle { s with error := none }) else none
  | .healthOk h =>
      -- one poll iteration whose checkHealth succeeded
      if s.polling then some (applyToggle (applyHealthOk s h)) else none
  | .healthErr =>
      -- one poll iteration whose checkHealth threw ("API not reachable yet")
      if s.polling then
        some (applyToggle { s with modelLoading := true, modelStatus := "connecting" })
      else none

/-- Run a list of events from `s`, failing if any event is not enabled. -/
def run (s : Session) : List Ev → Option Session
  | [] => some s
  | e :: es =>
    match step s e with
    | some s' => run s' es
    | none => none

/-- States the controller can actually be in: the initial state and anything
produced from a reachable state by an enabled event. -/
inductive Reachable : Session → Prop
  | init : Reachable init
  | step {s s' : Session} {e : Ev} : Reachable s → step s e = some s' → Reachable s'

theorem reachable_run {s s' : Session} {evs : List Ev}
    (hs : Reachable s) (h : run s evs = some s') : Reachable s' := by
  induction evs generalizing s with
  | nil => rw [run] at h; exact (Option.some.inj h) ▸ hs
  | cons e es ih =>
    rw [run] at h
    cases hstep : step s e with
    | none => rw [hstep] at h; exact absurd h (by simp)
    | some s1 => rw [hstep] at h; exact ih (Reachable.step hs hstep) h

@[simp] theorem applyToggle_audioFile (s : Session) : (applyToggle s).audioFile = s.audioFile := by
  unfold applyToggle; split_ifs <;> rfl

@[simp] theorem applyToggle_scriptText (s : Session) : (applyToggle s).scriptText = s.scriptText := by
  unfold applyToggle; split_ifs <;> rfl

@[simp] theorem applyToggle_progress (s : Session) : (applyToggle s).progress = s.progress := by
  unfold applyToggle; split_ifs <;> rfl

@[simp] theorem applyToggle_stage (s : Session) : (applyToggle s).generationStage = s.generationStage := by
  unfold applyToggle; split_ifs <;> rfl

@[simp] theorem applyToggle_isPlaying (s : Session) : (applyToggle s).isPlaying = s.isPlaying := by
  unfold applyToggle; split_ifs <;> rfl

@[simp] theorem applyToggle_error (s : Session) : (applyToggle s).error = s.error := by
  unfold applyToggle; split_ifs <;> rfl

@[simp] theorem applyToggle_modelReady (s : Session) : (applyToggle s).modelReady = s.modelReady := by
  unfold applyToggle; split_ifs <;> rfl

@[simp] theorem applyToggle_modelLoading (s : Session) : (applyToggle s).modelLoading = s.modelLoading := by
  unfold applyToggle; split_ifs <;> rfl

@[simp] theorem applyToggle_modelStatus (s : Session) : (applyToggle s).modelStatus = s.modelStatus := by
  unfold applyToggle; split_ifs <;> rfl

@[simp] theorem applyToggle_taskId (s : Session) : (applyToggle s).taskId = s.taskId := by
  unfold applyToggle; split_ifs <;> rfl

@[simp] theorem applyToggle_audioMetadata (s : Session) :
    (applyToggle s).audioMetadata = s.audioMetadata := by
  unfold applyToggle; split_ifs <;> rfl

@[simp] theorem applyToggle_outputMetadata (s : Session) :
    (applyToggle s).outputMetadata = s.outputMetadata := by
  unfold applyToggle; split_ifs <;> rfl

@[simp] theorem applyToggle_ref (s : Session) : (applyToggle s).ref = s.ref := by
  unfold applyToggle; split_ifs <;> rfl

@[simp] theorem applyToggle_openStreams (s : Session) :
    (applyToggle s).openStreams = s.openStreams := by
  unfold applyToggle; split_ifs <;> rfl

@[simp] theorem applyToggle_uploadInFlight (s : Session) :
    (applyToggle s).uploadInFlight = s.uploadInFlight := by
  unfold applyToggle; split_ifs <;> rfl

@[simp] theorem applyToggle_pendingProcessed (s : Session) :
    (applyToggle s).pendingProcessed = s.pendingProcessed := by
  unfold applyToggle; split_ifs <;> rfl

@[simp] theorem applyToggle_pendingComplete (s : Session) :
    (applyToggle s).pendingComplete = s.pendingComplete := by
  unfold applyToggle; split_ifs <;> rfl

@[simp] theorem applyToggle_polling (s : Session) : (applyToggle s).polling = s.polling := by
  unfold applyToggle; split_ifs <;> rfl

/-- The toggle only ever moves between `processed` and `scriptUploaded`. -/
theorem applyToggle_state_cases (s : Session) :
    (applyToggle s).state = s.state
      ∨ (s.state = .processed ∧ (applyToggle s).state = .scriptUploaded)
      ∨ (s.state = .scriptUploaded ∧ (applyToggle s).state = .processed) := by
  unfold applyToggle; split_ifs with h1 h2
  · exact Or.inr (Or.inl ⟨h1.1, rfl⟩)
  · exact Or.inr (Or.inr ⟨h2.1, rfl⟩)
  · exact Or.inl rfl

/-- On the two script states the toggle rederives the state from trimmed
emptiness of the script text. -/
theorem applyToggle_state_script {s : Session}
    (h : s.state = .processed ∨ s.state = .scriptUploaded) :
    (applyToggle s).state =
      (if jsTrim s.scriptText = "" then EngineState.processed else EngineState.scriptUploaded) := by
  unfold applyToggle
  rcases h with h | h <;> rw [h] <;> split_ifs <;> simp_all

/-- Away from the two script states the toggle does nothing to the state. -/
theorem applyToggle_state_other {s : Session}
    (h1 : s.state ≠ .processed) (h2 : s.state ≠ .scriptUploaded) :
    (applyToggle s).state = s.state := by
  unfold applyToggle; split_ifs <;> simp_all

/-- The inductive invariant of the controller, relating the React state
variables to the outstanding asynchronous resources. -/
structure Inv (s : Session) : Prop where
  streams : s.openStreams = if s.ref then 1 else 0
  ref_gen : s.ref = true → s.state = .generating ∧ s.pendingComplete = false
  pc : s.pendingComplete = true → s.state = .generating ∧ s.outputMetadata ≠ none
  pp : s.pendingProcessed = true → s.state = .processing ∧ s.uploadInFlight = false
  uif : s.uploadInFlight = true →
    s.state = .processing ∧ s.taskId = none ∧ s.audioFile ≠ none
  task : s.taskId ≠ none ↔
    (s.state = .processed ∨ s.state = .scriptUploaded ∨ s.state = .generating
      ∨ s.state = .complete ∨ s.pendingProcessed = true)
  outp : s.outputMetadata ≠ none ↔ (s.state = .complete ∨ s.pendingComplete = true)
  ready : s.modelReady = true → s.polling = false
  gen_script : s.state = .generating → jsTrim s.scriptText ≠ ""

theorem inv_init : Inv init := by
  constructor <;> simp [init]

theorem inv_applyToggle {s : Session} (h : Inv s) : Inv (applyToggle s) := by
  obtain ⟨h1, h2, h3, h4, h5, h6, h7, h8, h9⟩ := h
  rcases applyToggle_state_cases s with hst | ⟨hpre, hst⟩ | ⟨hpre, hst⟩ <;>
    constructor <;> simp_all

theorem inv_step {s s' : Session} {e : Ev} (hI : Inv s) (h : step s e = some s') : Inv s' := by
  obtain ⟨h1, h2, h3, h4, h5, h6, h7, h8, h9⟩ := hI
  cases e with
  | selectAudio f =>
    rw [step] at h
    split_ifs at h with hg
    · obtain rfl := (Option.some.inj h).symm
      apply inv_applyToggle
      rcases hg with hst | hst <;> constructor <;> simp_all
  | clearAudio =>
    rw [step] at h
    split_ifs at h with hg
    · obtain rfl := (Option.some.inj h).symm
      apply inv_applyToggle
      obtain ⟨hst | hst, hf⟩ := hg <;> constructor <;> simp_all
  | processAudio =>
    rw [step] at h
    split_ifs at h with hg
    · obtain rfl := (Option.some.inj h).symm
      apply inv_applyToggle
      obtain ⟨hst | hst, hf⟩ := hg <;> constructor <;> simp_all
  | uploadOk r =>
    rw [step] at h
    split_ifs at h with hg
    · obtain rfl := (Option.some.inj h).symm
      apply inv_applyToggle
      obtain ⟨hst, htk, hf⟩ := h5 hg
      constructor <;> simp_all
  | uploadErr detail status =>
    rw [step] at h
    split_ifs at h with hg
    · obtain rfl := (Option.some.inj h).symm
      apply inv_applyToggle
      obtain ⟨hst, htk, hf⟩ := h5 hg
      constructor <;> simp_all
  | processedTimer =>
    rw [step] at h
    split_ifs at h with hg
    · obtain rfl := (Option.some.inj h).symm
      apply inv_applyToggle
      obtain ⟨hst, huif⟩ := h4 hg
      constructor <;> simp_all
  | editScript t =>
    rw [step] at h
    split_ifs at h with hg
    · obtain rfl := (Option.some.inj h).symm
      apply inv_applyToggle
      rcases hg with hst | hst <;> constructor <;> simp_all
  | generate =>
    rw [step] at h
    split_ifs at h with hg
    · obtain rfl := (Option.some.inj h).symm
      apply inv_applyToggle
      obtain ⟨hst | hst, htrim, hmr, htk⟩ := hg <;> constructor <;> simp_all
  | sseProgress p stage =>
    rw [step] at h
    split_ifs at h with hg
    · obtain rfl := (Option.some.inj h).symm
      apply inv_applyToggle
      obtain ⟨hgen, hpc⟩ := h2 hg
      constructor <;> simp_all
  | sseComplete m =>
    rw [step] at h
    split_ifs at h with hg
    · obtain rfl := (Option.some.inj h).symm
      apply inv_applyToggle
      obtain ⟨hgen, hpc⟩ := h2 hg
      constructor <;> simp_all
  | sseError payload =>
    rw [step] at h
    split_ifs at h with hg
    · obtain rfl := (Option.some.inj h).symm
      apply inv_applyToggle
      obtain ⟨hgen, hpc⟩ := h2 hg
      constructor <;> simp_all
  | completeTimer =>
    rw [step] at h
    split_ifs at h with hg
    · obtain rfl := (Option.some.inj h).symm
      apply inv_applyToggle
      obtain ⟨hgen, hout⟩ := h3 hg
      constructor <;> simp_all
  | togglePlay =>
    rw [step] at h
    split_ifs at h with hg
    · obtain rfl := (Option.some.inj h).symm
      apply inv_applyToggle
      constructor <;> simp_all
  | reset =>
    rw [step] at h
    split_ifs at h with hg
    · obtain rfl := (Option.some.inj h).symm
      apply inv_applyToggle
      constructor <;> simp_all [applyReset]
  | dismissError =>
    rw [step] at h
    split_ifs at h with hg
    · obtain rfl := (Option.some.inj h).symm
      apply inv_applyToggle
      constructor <;> simp_all
  | healthOk hr =>
    rw [step] at h
    split_ifs at h with hg
    · obtain rfl := (Option.some.inj h).symm
      apply inv_applyToggle
      unfold applyHealthOk
      split_ifs with hl hf <;> constructor <;> simp_all
  | healthErr =>
    rw [step] at h
    split_ifs at h with hg
    · obtain rfl := (Option.some.inj h).symm
      apply inv_applyToggle
      constructor <;> simp_all

theorem reachable_inv {s : Session} (h : Reachable s) : Inv s := by
  induction h with
  | init => exact inv_init
  | step _ hstep ih => exact inv_step ih hstep

/-! Concrete payloads and a concrete execution used to exhibit reachable
states for counterexamples and witnesses. -/

/-- A concrete successful upload response. -/
def r0 : UploadAudioResponse :=
  { task_id := "t0", filename := "a.wav", duration := 1, duration_formatted := "00:01.00s",
    sample_rate := 44100, channels := 1, frequency_range := "80Hz-8kHz", quality_score := 90 }

/-- A concrete health response reporting the model fully loaded. -/
def h0 : HealthResponse :=
  { status := "ok", model_loaded := true, model_loading := false, model_status := "ready",
    model_error := none, device := some "cuda" }

/-- A concrete completion payload. -/
def m0 : CompleteEvent :=
  { task_id := "t0", duration_formatted := "00:12.34s", sample_rate := 24000,
    file_size_bytes := 2345678 }

/-- After selecting "a.wav" and confirming processing: the upload request is
in flight. -/
def sUploading : Session :=
  { state := .processing, audioFile := some "a.wav", scriptText := "", progress := 0,
    generationStage := "", isPlaying := false, error := none, modelReady := false,
    modelLoading := true, modelStatus := "connecting", taskId := none,
    audioMetadata := none, outputMetadata := none, ref := false, openStreams := 0,
    uploadInFlight := true, pendingProcessed := false, pendingComplete := false,
    polling := true }

/-- After the upload succeeded with `r0` but before the 400 ms timer fired:
still `processing`, yet `taskId` is already set. -/
def sProcessingOk : Session :=
  { sUploading with
    uploadInFlight := false
    taskId := some "t0"
    audioMetadata := some r0
    progress := 100
    pendingProcessed := true }

/-- After the 400 ms timer fired: `processed`. -/
def sProcessed : Session :=
  { sProcessingOk with pendingProcessed := false, state := .processed }

/-- After a poll iteration saw `h0`: the model is ready, polling stopped. -/
def sReady : Session :=
  { sProcessed with
    modelReady := true
    modelLoading := false
    modelStatus := "ready"
    polling := false }

/-- After typing "hi" into the script box: `scriptUploaded`. -/
def sScripted : Session :=
  { sReady with scriptText := "hi", state := .scriptUploaded }

/-- After triggering generation: a stream is open. -/
def sGenerating : Session :=
  { sScripted with
    state := .generating
    progress := 0
    generationStage := "Initializing"
    openStreams := 1
    ref := true }

/-- After the `complete` event but before the 600 ms timer fired: still
`generating`, stream closed, `outputMetadata` already set. -/
def sPendingComplete : Session :=
  { sGenerating with
    outputMetadata := some m0
    progress := 100
    openStreams := 0
    ref := false
    pendingComplete := true }

theorem run_to_uploading :
    run init [Ev.selectAudio "a.wav", Ev.processAudio] = some sUploading := by decide

theorem reach_sUploading : Reachable sUploading :=
  reachable_run Reachable.init run_to_uploading

theorem run_to_processingOk : run sUploading [Ev.uploadOk r0] = some sProcessingOk := by decide

theorem reach_sProcessingOk : Reachable sProcessingOk :=
  reachable_run reach_sUploading run_to_processingOk

theorem run_to_processed : run sProcessingOk [Ev.processedTimer] = some sProcessed := by decide

theorem reach_sProcessed : Reachable sProcessed :=
  reachable_run reach_sProcessingOk run_to_processed

theorem run_to_ready : run sProcessed [Ev.healthOk h0] = some sReady := by decide

theorem reach_sReady : Reachable sReady :=
  reachable_run reach_sProcessed run_to_ready

theorem run_to_scripted : run sReady [Ev.editScript "hi"] = some sScripted := by decide

theorem reach_sScripted : Reachable sScripted :=
  reachable_run reach_sReady run_to_scripted

theorem run_to_generating : run sScripted [Ev.generate] = some sGenerating := by decide

theorem reach_sGenerating : Reachable sGenerating :=
  reachable_run reach_sScripted run_to_generating

theorem run_to_pendingComplete :
    run sGenerating [Ev.sseComplete m0] = some sPendingComplete := by decide

theorem reach_sPendingComplete : Reachable sPendingComplete :=
  reachable_run reach_sGenerating run_to_pendingComplete

/-! Claim theorems. -/

/-- C9: the formatting helpers satisfy the spec's examples — 72.5 seconds
renders as "01:12.50s", 2345678 bytes as "2.2 MB", 500 bytes as "500 B". -/
theorem c9_format_examples :
    formatDuration (72.5 : ℚ) = "01:12.50s"
      ∧ formatFileSize 2345678 = "2.2 MB"
      ∧ formatFileSize 500 = "500 B" := by
  refine ⟨?_, ?_, ?_⟩
  · have hm : ⌊(72.5 : ℚ) / 60⌋ = 1 := by norm_num
    have hs : ⌊((72.5 : ℚ) - (1 : ℤ) * 60) * 100 + 1/2⌋ = 1250 := by norm_num
    simp only [formatDuration, toFixed2, hm, hs]
    decide
  · have hq : ⌊((2345678 : ℕ) : ℚ) / (1024 * 1024) * 10 + 1/2⌋ = 22 := by norm_num
    simp only [formatFileSize, toFixed1, hq]
    decide
  · decide

/-- C10: `formatFileSize` caps its unit at MB — every byte count of at least
1024·1024 renders as the count divided by 1024·1024, to one decimal digit,
suffixed " MB"; in particular 3 GiB renders as "3072.0 MB", never with a GB
unit. -/
theorem c10_mb_cap :
    (∀ bytes : ℕ, 1024 * 1024 ≤ bytes →
        formatFileSize bytes = toFixed1 ((bytes : ℚ) / (1024 * 1024)) ++ " MB")
      ∧ formatFileSize 3221225472 = "3072.0 MB" := by
  constructor
  · intro b hb
    unfold formatFileSize
    rw [if_neg (by omega), if_neg (by omega)]
  · have hq : ⌊((3221225472 : ℕ) : ℚ) / (1024 * 1024) * 10 + 1/2⌋ = 30720 := by norm_num
    simp only [formatFileSize, toFixed1, hq]
    decide

/-- Witness for C10 at 2 MiB: the hypothesis 1024·1024 ≤ 2097152 holds and
the MB rendering applies. -/
theorem c10_mb_cap_witness :
    formatFileSize 2097152 = toFixed1 ((2097152 : ℕ) / (1024 * 1024 : ℚ)) ++ " MB" := by
  have h := c10_mb_cap.1 2097152 (by norm_num)
  simpa using h

/-- C1 as stated is false: immediately after a successful upload response,
while the 400 ms delayed transition to `processed` is still pending, the
state is still `processing` (the spec's "uploading") but `taskId` is already
non-null. -/
theorem c1_counterexample :
    ¬ (∀ s : Session, Reachable s →
        (s.taskId ≠ none ↔
          (s.state = .processed ∨ s.state = .scriptUploaded
            ∨ s.state = .generating ∨ s.state = .complete))) := by
  intro hcl
  have h := (hcl sProcessingOk reach_sProcessingOk).mp (by decide)
  revert h
  decide

/-- C1 amended: in every reachable state, `taskId` is non-null iff the state
is `processed`, `scriptUploaded`, `generating` or `complete`, or the upload
already succeeded and the 400 ms transition out of `processing` is still
pending. -/
theorem c1_taskId_iff (s : Session) (hs : Reachable s) :
    s.taskId ≠ none ↔
      (s.state = .processed ∨ s.state = .scriptUploaded ∨ s.state = .generating
        ∨ s.state = .complete ∨ (s.state = .processing ∧ s.pendingProcessed = true)) := by
  obtain ⟨h1, h2, h3, h4, h5, h6, h7, h8, h9⟩ := reachable_inv hs
  constructor
  · intro h
    rcases h6.mp h with h | h | h | h | h
    · exact Or.inl h
    · exact Or.inr (Or.inl h)
    · exact Or.inr (Or.inr (Or.inl h))
    · exact Or.inr (Or.inr (Or.inr (Or.inl h)))
    · exact Or.inr (Or.inr (Or.inr (Or.inr ⟨(h4 h).1, h⟩)))
  · intro h
    apply h6.mpr
    rcases h with h | h | h | h | ⟨-, h⟩
    · exact Or.inl h
    · exact Or.inr (Or.inl h)
    · exact Or.inr (Or.inr (Or.inl h))
    · exact Or.inr (Or.inr (Or.inr (Or.inl h)))
    · exact Or.inr (Or.inr (Or.inr (Or.inr h)))

/-- Witness for C1 amended at the concrete post-upload state. -/
theorem c1_taskId_iff_witness :
    sProcessingOk.taskId ≠ none ↔
      (sProcessingOk.state = .processed ∨ sProcessingOk.state = .scriptUploaded
        ∨ sProcessingOk.state = .generating ∨ sProcessingOk.state = .complete
        ∨ (sProcessingOk.state = .processing ∧ sProcessingOk.pendingProcessed = true)) :=
  c1_taskId_iff sProcessingOk reach_sProcessingOk

/-- C2 as stated is false: after the stream's `complete` event and before the
600 ms delayed transition fires, the state is still `generating` but
`outputMetadata` is already non-null. -/
theorem c2_counterexample :
    ¬ (∀ s : Session, Reachable s → (s.outputMetadata ≠ none ↔ s.state = .complete)) := by
  intro hcl
  have h := (hcl sPendingComplete reach_sPendingComplete).mp (by decide)
  revert h
  decide

/-- C2 amended: in every reachable state, `outputMetadata` is non-null iff
the state is `complete`, or the `complete` event already arrived and the
600 ms transition out of `generating` is still pending. -/
theorem c2_outputMetadata_iff (s : Session) (hs : Reachable s) :
    s.outputMetadata ≠ none ↔
      (s.state = .complete ∨ (s.state = .generating ∧ s.pendingComplete = true)) := by
  obtain ⟨h1, h2, h3, h4, h5, h6, h7, h8, h9⟩ := reachable_inv hs
  constructor
  · intro h
    rcases h7.mp h with h | h
    · exact Or.inl h
    · exact Or.inr ⟨(h3 h).1, h⟩
  · intro h
    apply h7.mpr
    rcases h with h | ⟨-, h⟩
    · exact Or.inl h
    · exact Or.inr h

/-- Witness for C2 amended at the concrete pending-complete state. -/
theorem c2_outputMetadata_iff_witness :
    sPendingComplete.outputMetadata ≠ none ↔
      (sPendingComplete.state = .complete
        ∨ (sPendingComplete.state = .generating ∧ sPendingComplete.pendingComplete = true)) :=
  c2_outputMetadata_iff sPendingComplete reach_sPendingComplete

/-- C3: in every reachable state at most one generation stream is open, and
while one is open a further generate trigger is not available (rejected
without opening a stream). -/
theorem c3_single_stream (s : Session) (hs : Reachable s) :
    s.openStreams ≤ 1 ∧ (1 ≤ s.openStreams → step s Ev.generate = none) := by
  obtain ⟨h1, h2, h3, h4, h5, h6, h7, h8, h9⟩ := reachable_inv hs
  constructor
  · rw [h1]; split_ifs <;> omega
  · intro hopen
    have href : s.ref = true := by
      by_contra hc
      rw [Bool.not_eq_true] at hc
      rw [hc] at h1
      simp at h1
      omega
    have hgen := (h2 href).1
    rw [step, if_neg]
    rintro ⟨hst | hst, -, -, -⟩ <;> rw [hgen] at hst <;> exact EngineState.noConfusion hst

/-- Witness for C3 at the concrete generating state: exactly one stream is
open and a second generate trigger is rejected. -/
theorem c3_single_stream_witness :
    sGenerating.openStreams ≤ 1 ∧ step sGenerating Ev.generate = none :=
  ⟨(c3_single_stream sGenerating reach_sGenerating).1,
   (c3_single_stream sGenerating reach_sGenerating).2 (by decide)⟩

/-- C4: from every reachable state — including mid-generation — the reset
action yields `idle` with `taskId`, `audioMetadata` (the audio signature),
`outputMetadata`, `progress`, `scriptText`, `generationStage`, the error
message, the playback flag and the file handle all reset to their initial
empty values, and no generation stream open afterwards. -/
theorem c4_reset_clears (s : Session) (hs : Reachable s) :
    (applyReset s).state = .idle ∧ (applyReset s).taskId = none
      ∧ (applyReset s).audioMetadata = none ∧ (applyReset s).outputMetadata = none
      ∧ (applyReset s).progress = 0 ∧ (applyReset s).scriptText = ""
      ∧ (applyReset s).error = none ∧ (applyReset s).audioFile = none
      ∧ (applyReset s).generationStage = "" ∧ (applyReset s).isPlaying = false
      ∧ (applyReset s).openStreams = 0 ∧ (applyReset s).ref = false := by
  obtain ⟨h1, h2, h3, h4, h5, h6, h7, h8, h9⟩ := reachable_inv hs
  refine ⟨rfl, rfl, rfl, rfl, rfl, rfl, rfl, rfl, rfl, rfl, ?_, rfl⟩
  show (if s.ref then s.openStreams - 1 else s.openStreams) = 0
  rw [h1]
  split_ifs <;> rfl

/-- Witness for C4 at the concrete mid-generating state. -/
theorem c4_reset_clears_witness :
    (applyReset sGenerating).state = .idle ∧ (applyReset sGenerating).taskId = none
      ∧ (applyReset sGenerating).audioMetadata = none
      ∧ (applyReset sGenerating).outputMetadata = none
      ∧ (applyReset sGenerating).progress = 0 ∧ (applyReset sGenerating).scriptText = ""
      ∧ (applyReset sGenerating).error = none ∧ (applyReset sGenerating).audioFile = none
      ∧ (applyReset sGenerating).generationStage = ""
      ∧ (applyReset sGenerating).isPlaying = false
      ∧ (applyReset sGenerating).openStreams = 0 ∧ (applyReset sGenerating).ref = false :=
  c4_reset_clears sGenerating reach_sGenerating

/-- C5 as stated is false: editing the script to the all-whitespace text " "
from `processed` leaves the state `processed` even though the script text is
non-empty — the code rederives the state from the *trimmed* text. -/
theorem c5_counterexample :
    ¬ (∀ (s : Session) (t : String) (s' : Session), Reachable s →
        step s (Ev.editScript t) = some s' → (s'.state = .scriptUploaded ↔ t ≠ "")) := by
  intro hcl
  have hstep : step sProcessed (Ev.editScript " ") =
      some { sProcessed with scriptText := " " } := by decide
  have h := (hcl sProcessed " " _ reach_sProcessed hstep).mpr (by decide)
  revert h
  decide

/-- C5 amended: from `processed` or `scriptUploaded`, after any edit of the
script text the stored text is the new text and the state is rederived to
`scriptUploaded` exactly when the new text is non-blank (non-empty after
trimming whitespace) and to `processed` exactly when it is blank, regardless
of prior history. -/
theorem c5_script_toggle (s : Session) (t : String) (s' : Session) (_hs : Reachable s)
    (h : step s (Ev.editScript t) = some s') :
    s'.scriptText = t ∧
      s'.state = (if jsTrim t = "" then EngineState.processed else EngineState.scriptUploaded) := by
  rw [step] at h
  split_ifs at h with hg
  obtain rfl := (Option.some.inj h).symm
  refine ⟨by simp, ?_⟩
  have hst : ({ s with scriptText := t } : Session).state = .processed
      ∨ ({ s with scriptText := t } : Session).state = .scriptUploaded := hg
  rw [applyToggle_state_script hst]

/-- Witness for C5 amended: editing "hello" from the concrete processed
state yields `scriptUploaded`. -/
theorem c5_script_toggle_witness :
    ({ sProcessed with scriptText := "hello", state := EngineState.scriptUploaded } :
        Session).scriptText = "hello"
      ∧ ({ sProcessed with scriptText := "hello", state := EngineState.scriptUploaded } :
          Session).state =
        (if jsTrim "hello" = "" then EngineState.processed else EngineState.scriptUploaded) :=
  c5_script_toggle sProcessed "hello" _ reach_sProcessed (by decide)

/-- C6: whenever an in-flight upload fails with response detail `detail` and
HTTP status `status`, the session returns to `audioUploaded` with the file
handle retained, and the stored error message is the body's `detail` when
present and the status-derived "Upload failed (N)" otherwise. -/
theorem c6_upload_failure (s : Session) (detail : Option String) (status : ℕ) (s' : Session)
    (hs : Reachable s) (h : step s (Ev.uploadErr detail status) = some s') :
    s'.state = .audioUploaded ∧ s'.audioFile = s.audioFile ∧ s'.audioFile ≠ none
      ∧ s'.error = some (uploadErrorMessage detail status)
      ∧ (∀ d, detail = some d → s'.error = some d)
      ∧ (detail = none → s'.error = some ("Upload failed (" ++ toString status ++ ")")) := by
  obtain ⟨h1, h2, h3, h4, h5, h6, h7, h8, h9⟩ := reachable_inv hs
  rw [step] at h
  split_ifs at h with hg
  obtain rfl := (Option.some.inj h).symm
  obtain ⟨hst, htk, hf⟩ := h5 hg
  refine ⟨?_, by simp, by simpa using hf, by simp, ?_, ?_⟩
  · rw [applyToggle_state_other] <;> simp
  · rintro d rfl
    simp [uploadErrorMessage]
  · rintro rfl
    simp [uploadErrorMessage]

/-- Witness for C6: a failing upload with no body detail and status 500 from
the concrete in-flight state. -/
theorem c6_upload_failure_witness :
    ({ sUploading with
        uploadInFlight := false
        error := some (uploadErrorMessage none 500)
        state := EngineState.audioUploaded } : Session).state = .audioUploaded
      ∧ ({ sUploading with
            uploadInFlight := false
            error := some (uploadErrorMessage none 500)
            state := EngineState.audioUploaded } : Session).audioFile = sUploading.audioFile
      ∧ ({ sUploading with
            uploadInFlight := false
            error := some (uploadErrorMessage none 500)
            state := EngineState.audioUploaded } : Session).audioFile ≠ none
      ∧ ({ sUploading with
            uploadInFlight := false
            error := some (uploadErrorMessage none 500)
            state := EngineState.audioUploaded } : Session).error =
          some (uploadErrorMessage none 500)
      ∧ (∀ d, (none : Option String) = some d →
          ({ sUploading with
              uploadInFlight := false
              error := some (uploadErrorMessage none 500)
              state := EngineState.audioUploaded } : Session).error = some d)
      ∧ ((none : Option String) = none →
          ({ sUploading with
              uploadInFlight := false
              error := some (uploadErrorMessage none 500)
              state := EngineState.audioUploaded } : Session).error =
            some ("Upload failed (" ++ toString 500 ++ ")")) :=
  c6_upload_failure sUploading none 500 _ reach_sUploading (by decide)

/-- The stream-error message C7 as stated prescribes, following the claim's
words: the structured payload's message when one is present, otherwise — in
particular whenever no structured message is available — the generic
connectivity message. Stated for comparison with `streamErrorMessage`,
which is translated from the source. -/
def specStreamErrorMessage : Option (Option (Option String)) → String
  | some (some (some m)) => m
  | _ => "Connection to server lost"

/-- C7 as stated is false: an error event carrying structured data without a
usable `error` field stores "Generation failed", which is not the generic
connectivity message ("Connection to server lost") the claim prescribes for
every payload without a message. -/
theorem c7_counterexample :
    ¬ (∀ (s : Session) (p : Option (Option (Option String))) (s' : Session), Reachable s →
        step s (Ev.sseError p) = some s' → s'.error = some (specStreamErrorMessage p)) := by
  intro hcl
  have hstep : step sGenerating (Ev.sseError (some (some none))) =
      some { sGenerating with
              error := some "Generation failed"
              openStreams := 0
              ref := false
              state := EngineState.scriptUploaded } := by decide
  have h := hcl sGenerating (some (some none)) _ reach_sGenerating hstep
  revert h
  decide

/-- C7 amended: every error event on an open generation stream closes the
stream, returns the session to `scriptUploaded` with the script text
unchanged, and stores the payload's error message when the event carries
structured data with a non-empty message, the fallback "Generation failed"
for structured data without a usable message, and the generic connectivity
message "Connection to server lost" when the event carries no data. -/
theorem c7_stream_error (s : Session) (p : Option (Option (Option String))) (s' : Session)
    (hs : Reachable s) (h : step s (Ev.sseError p) = some s') :
    s'.state = .scriptUploaded ∧ s'.scriptText = s.scriptText
      ∧ s'.openStreams = 0 ∧ s'.ref = false
      ∧ s'.error = some (streamErrorMessage p)
      ∧ (∀ m, p = some (some (some m)) → m ≠ "" → s'.error = some m)
      ∧ (p = none → s'.error = some "Connection to server lost") := by
  obtain ⟨h1, h2, h3, h4, h5, h6, h7, h8, h9⟩ := reachable_inv hs
  rw [step] at h
  split_ifs at h with hg
  obtain rfl := (Option.some.inj h).symm
  have hgen := (h2 hg).1
  have htrim := h9 hgen
  refine ⟨?_, by simp, ?_, by simp, by simp, ?_, ?_⟩
  · rw [applyToggle_state_script (Or.inr rfl), if_neg (by simpa using htrim)]
  · rw [h1, if_pos hg]
    simp
  · rintro m rfl hm
    simp [streamErrorMessage, hm]
  · rintro rfl
    simp [streamErrorMessage]

/-- Witness for C7 amended: a connection-drop error event on the concrete
open stream. -/
theorem c7_stream_error_witness :
    ({ sGenerating with
        error := some "Connection to server lost"
        openStreams := 0
        ref := false
        state := EngineState.scriptUploaded } : Session).state = .scriptUploaded
      ∧ ({ sGenerating with
            error := some "Connection to server lost"
            openStreams := 0
            ref := false
            state := EngineState.scriptUploaded } : Session).scriptText =
          sGenerating.scriptText
      ∧ ({ sGenerating with
            error := some "Connection to server lost"
            openStreams := 0
            ref := false
            state := EngineState.scriptUploaded } : Session).openStreams = 0
      ∧ ({ sGenerating with
            error := some "Connection to server lost"
            openStreams := 0
            ref := false
            state := EngineState.scriptUploaded } : Session).ref = false
      ∧ ({ sGenerating with
            error := some "Connection to server lost"
            openStreams := 0
            ref := false
            state := EngineState.scriptUploaded } : Session).error =
          some (streamErrorMessage none)
      ∧ (∀ m, (none : Option (Option (Option String))) = some (some (some m)) → m ≠ "" →
          ({ sGenerating with
              error := some "Connection to server lost"
              openStreams := 0
              ref := false
              state := EngineState.scriptUploaded } : Session).error = some m)
      ∧ ((none : Option (Option (Option String))) = none →
          ({ sGenerating with
              error := some "Connection to server lost"
              openStreams := 0
              ref := false
              state := EngineState.scriptUploaded } : Session).error =
            some "Connection to server lost") :=
  c7_stream_error sGenerating none _ reach_sGenerating (by decide)

/-- No event ever restarts a stopped health-poll loop. -/
theorem step_no_restart {s s' : Session} {e : Ev} (h : step s e = some s')
    (hp : s.polling = false) : s'.polling = false := by
  cases e with
  | selectAudio f =>
    rw [step] at h; split_ifs at h
    obtain rfl := (Option.some.inj h).symm; simpa using hp
  | clearAudio =>
    rw [step] at h; split_ifs at h
    obtain rfl := (Option.some.inj h).symm; simpa using hp
  | processAudio =>
    rw [step] at h; split_ifs at h
    obtain rfl := (Option.some.inj h).symm; simpa using hp
  | uploadOk r =>
    rw [step] at h; split_ifs at h
    obtain rfl := (Option.some.inj h).symm; simpa using hp
  | uploadErr detail status =>
    rw [step] at h; split_ifs at h
    obtain rfl := (Option.some.inj h).symm; simpa using hp
  | processedTimer =>
    rw [step] at h; split_ifs at h
    obtain rfl := (Option.some.inj h).symm; simpa using hp
  | editScript t =>
    rw [step] at h; split_ifs at h
    obtain rfl := (Option.some.inj h).symm; simpa using hp
  | generate =>
    rw [step] at h; split_ifs at h
    obtain rfl := (Option.some.inj h).symm; simpa using hp
  | sseProgress p stage =>
    rw [step] at h; split_ifs at h
    obtain rfl := (Option.some.inj h).symm; simpa using hp
  | sseComplete m =>
    rw [step] at h; split_ifs at h
    obtain rfl := (Option.some.inj h).symm; simpa using hp
  | sseError payload =>
    rw [step] at h; split_ifs at h
    obtain rfl := (Option.some.inj h).symm; simpa using hp
  | completeTimer =>
    rw [step] at h; split_ifs at h
    obtain rfl := (Option.some.inj h).symm; simpa using hp
  | togglePlay =>
    rw [step] at h; split_ifs at h
    obtain rfl := (Option.some.inj h).symm; simpa using hp
  | reset =>
    rw [step] at h; split_ifs at h
    obtain rfl := (Option.some.inj h).symm; simpa [applyReset] using hp
  | dismissError =>
    rw [step] at h; split_ifs at h
    obtain rfl := (Option.some.inj h).symm; simpa using hp
  | healthOk hr =>
    rw [step] at h; split_ifs at h with hg
    rw [hp] at hg; exact absurd hg (by decide)
  | healthErr =>
    rw [step] at h; split_ifs at h with hg
    rw [hp] at hg; exact absurd hg (by decide)

/-- C8: the health-poll loop. A successful iteration records the reported
status; a fully-loaded response marks the model ready and stops polling; a
(non-loaded) "failed" response stops polling, clears the loading flag and
surfaces a fatal error message; any other response keeps polling with the
reported loading flag; a failed query keeps polling, re-marking the session
as loading/connecting. A stopped loop is never restarted by any event; once
the model is ready the loop is stopped; a polling session can retry
unreachable-backend iterations indefinitely; and the retry delay is the
fixed constant 3000 ms (no backoff). -/
theorem c8_health_poll :
    (∀ (s : Session) (hr : HealthResponse) (s' : Session), Reachable s →
        step s (Ev.healthOk hr) = some s' →
        s'.modelStatus = hr.model_status
          ∧ (hr.model_loaded = true →
              s'.modelReady = true ∧ s'.modelLoading = false ∧ s'.polling = false)
          ∧ (hr.model_loaded = false → hr.model_status = "failed" →
              s'.polling = false ∧ s'.modelLoading = false
                ∧ s'.error = some ("Model failed to load: "
                    ++ hr.model_error.getD "unknown error"))
          ∧ (hr.model_loaded = false → hr.model_status ≠ "failed" →
              s'.polling = true ∧ s'.modelReady = false
                ∧ s'.modelLoading = hr.model_loading))
      ∧ (∀ s s' : Session, step s Ev.healthErr = some s' →
          s'.polling = true ∧ s'.modelLoading = true ∧ s'.modelStatus = "connecting")
      ∧ (∀ (s s' : Session) (e : Ev), step s e = some s' →
          s.polling = false → s'.polling = false)
      ∧ (∀ s : Session, Reachable s → s.modelReady = true → s.polling = false)
      ∧ (∀ (s : Session) (n : ℕ), s.polling = true →
          ∃ s', run s (List.replicate n Ev.healthErr) = some s' ∧ s'.polling = true)
      ∧ healthPollIntervalMs = 3000 := by
  refine ⟨?_, ?_, ?_, ?_, ?_, rfl⟩
  · intro s hr s' hs h
    obtain ⟨h1, h2, h3, h4, h5, h6, h7, h8, h9⟩ := reachable_inv hs
    rw [step] at h
    split_ifs at h with hg
    obtain rfl := (Option.some.inj h).symm
    unfold applyHealthOk
    split_ifs with hl hf
    · exact ⟨by simp, fun _ => ⟨by simp, by simp, by simp⟩,
        fun hnl _ => absurd hl (by simp [hnl]),
        fun hnl _ => absurd hl (by simp [hnl])⟩
    · refine ⟨by simp, fun hld => absurd hld hl, fun _ _ => ⟨by simp, by simp, by simp⟩,
        fun _ hnf => absurd hf hnf⟩
    · refine ⟨by simp, fun hld => absurd hld hl, fun _ hsf => absurd hsf hf,
        fun _ _ => ⟨by simpa using hg, ?_, by simp⟩⟩
      simp only [applyToggle_modelReady]
      show s.modelReady = false
      cases hmr : s.modelReady
      · rfl
      · exact absurd (h8 hmr) (by rw [hg]; decide)
  · intro s s' h
    rw [step] at h
    split_ifs at h with hg
    obtain rfl := (Option.some.inj h).symm
    exact ⟨by simpa using hg, by simp, by simp⟩
  · exact fun s s' e h hp => step_no_restart h hp
  · exact fun s hs hmr => (reachable_inv hs).ready hmr
  · intro s n
    induction n generalizing s with
    | zero => exact fun hp => ⟨s, rfl, hp⟩
    | succ n ih =>
      intro hp
      have hstep : step s Ev.healthErr =
          some (applyToggle { s with modelLoading := true, modelStatus := "connecting" }) := by
        rw [step, if_pos hp]
      obtain ⟨s', hrun, hp'⟩ :=
        ih (applyToggle { s with modelLoading := true, modelStatus := "connecting" })
          (by simpa using hp)
      refine ⟨s', ?_, hp'⟩
      rw [List.replicate_succ, run, hstep]
      exact hrun

/-- The concrete result of a loaded health response in the initial state. -/
def sInitReady : Session :=
  { init with
    modelStatus := "ready"
    modelReady := true
    modelLoading := false
    polling := false }

/-- Witness for C8: the loaded response `h0` from the initial state, and
three unreachable-backend retries from the initial state. -/
theorem c8_health_poll_witness :
    (sInitReady.modelStatus = h0.model_status
      ∧ (h0.model_loaded = true →
          sInitReady.modelReady = true ∧ sInitReady.modelLoading = false
            ∧ sInitReady.polling = false)
      ∧ (h0.model_loaded = false → h0.model_status = "failed" →
          sInitReady.polling = false ∧ sInitReady.modelLoading = false
            ∧ sInitReady.error = some ("Model failed to load: "
                ++ h0.model_error.getD "unknown error"))
      ∧ (h0.model_loaded = false → h0.model_status ≠ "failed" →
          sInitReady.polling = true ∧ sInitReady.modelReady = false
            ∧ sInitReady.modelLoading = h0.model_loading))
      ∧ (∃ s', run init (List.replicate 3 Ev.healthErr) = some s' ∧ s'.polling = true) :=
  ⟨c8_health_poll.1 init h0 sInitReady Reachable.init (by decide),
   c8_health_poll.2.2.2.2.1 init 3 (by decide)⟩

end VoxSynth
